import Mathlib

/-!
Shallow embedding of `scene/__init__.py` from the gaussian-splatting
repository: the `Scene` orchestrator class (construction, `save`,
`getTrainCameras`, `getTestCameras`).

External collaborators (dataset loaders, the Gaussian model, the camera
builder, the camera serializer, the directory scanner, the random source)
are not part of the excerpt; they are modelled as abstract functions
bundled in an environment record, and the constructor records the calls it
makes to them (file writes, model-initialization calls) so that the
orchestration contract can be stated and proved.

Python semantics captured explicitly:
  * `os.path.join a b` with a relative second component is `a ++ "/" ++ b`;
  * the truthiness test `if x:` on an `Option Int` value (`None`-able
    integer) is false exactly on `none` and `some 0`;
  * a Python `dict` built by repeated assignment is a finite map, embedded
    as a function `ℚ → Option α` updated pointwise (resolution scales are
    dictionary keys compared by equality; they are embedded as rationals).
-/

namespace GSplat

/-- `os.path.join` for the relative path components used in this file. -/
def pathJoin (a b : String) : String := a ++ "/" ++ b

/-- Python truthiness of a nullable integer: `None` and `0` are falsy. -/
def optTruthy : Option Int → Bool
  | none => false
  | some n => n != 0

/-- The part of `ModelParams` (from `arguments`) that `Scene` reads. -/
structure ModelParams where
  model_path : String
  source_path : String
  images : String
  eval : Bool
  white_background : Bool

/-- The fields of the loader-produced scene description that `Scene` uses:
ordered train/test camera-info lists, the point cloud, the path of its
serialized form, and the normalization record (its radius is the only part
read). -/
structure SceneInfo (Cam PC : Type) where
  point_cloud : PC
  train_cameras : List Cam
  test_cameras : List Cam
  nerf_normalization_radius : ℚ
  ply_path : String

/-- Which entry of `sceneLoadTypeCallbacks` was selected. -/
inductive LoaderKind
  | Colmap
  | Blender
  deriving DecidableEq, Repr

/-- Content of a file written during construction: either a verbatim copy
of a source file, or the serialized camera JSON array. -/
inductive FileContent (J : Type)
  | copyOf (srcPath : String)
  | jsonCams (cams : List J)
  deriving DecidableEq

/-- A call made to the `GaussianModel` object during construction. -/
inductive ModelOp (PC : Type)
  | load_ply (path : String)
  | create_from_pcd (pc : PC) (spatial_lr_scale : ℚ)
  deriving DecidableEq

/-- The environment of external collaborators consumed by `Scene`.

`searchForMaxIteration` — Modelled from the spec: the function lives in
`utils/system_utils`, which is not among the sources; the spec describes
it as "a directory scanner that returns the maximum iteration number found
under a directory", so it is an abstract function from the directory path
to that number.

`colmap` / `blender` are the two entries of `sceneLoadTypeCallbacks`;
`cameraList_from_camInfos` and `camera_to_JSON` come from
`utils/camera_utils`; all are external to the excerpt and abstract here.

`shuffleTrain` / `shuffleTest` are the outcomes of the two
`random.shuffle` calls drawn from the process-wide random source: each is
the list rearrangement the random source produces for that call. -/
structure Env (Cam CamObj PC J : Type) where
  fsExists : String → Bool
  searchForMaxIteration : String → Int
  colmap : String → String → Bool → SceneInfo Cam PC
  blender : String → Bool → Bool → SceneInfo Cam PC
  cameraList_from_camInfos : List Cam → ℚ → ModelParams → List CamObj
  camera_to_JSON : Nat → Cam → J
  shuffleTrain : List Cam → List Cam
  shuffleTest : List Cam → List Cam

/-- The empty Python dict keyed by resolution scales. -/
def dictEmpty {α : Type} : ℚ → Option α := fun _ => none

/-- Assignment `d[k] = v` on a Python dict. -/
def dictInsert {α : Type} (d : ℚ → Option α) (k : ℚ) (v : α) : ℚ → Option α :=
  fun q => if q = k then some v else d q

/-- The observable state of a constructed `Scene`, together with the trace
of its externally visible effects (file writes and model calls). -/
structure SceneState (Cam CamObj PC J : Type) where
  model_path : String
  loaded_iter : Option Int
  loaderUsed : LoaderKind
  scene_info : SceneInfo Cam PC
  writes : List (String × FileContent J)
  cameras_extent : ℚ
  train_cameras : ℚ → Option (List CamObj)
  test_cameras : ℚ → Option (List CamObj)
  gaussianCalls : List (ModelOp PC)

variable {Cam CamObj PC J : Type}

/-- Resolution of `load_iteration` into `self.loaded_iter`
(`Scene.__init__`, first conditional): inside `if load_iteration:`,
`-1` means scan `<model_path>/point_cloud` for the maximum iteration,
any other value is used as is; otherwise `loaded_iter` stays `None`. -/
def resolveIter (env : Env Cam CamObj PC J) (model_path : String)
    (load_iteration : Option Int) : Option Int :=
  if optTruthy load_iteration then
    if load_iteration = some (-1) then
      some (env.searchForMaxIteration (pathJoin model_path "point_cloud"))
    else
      load_iteration
  else
    none

/-- Dataset-type dispatch (`Scene.__init__`, second conditional): a
`sparse` subdirectory selects the Colmap loader, else a
`transforms_train.json` file selects the Blender loader, else the
construction fails on `assert False, "Could not recognize scene type!"`. -/
def loadSceneInfo (env : Env Cam CamObj PC J) (args : ModelParams) :
    Except String (LoaderKind × SceneInfo Cam PC) :=
  if env.fsExists (pathJoin args.source_path "sparse") then
    Except.ok (LoaderKind.Colmap, env.colmap args.source_path args.images args.eval)
  else if env.fsExists (pathJoin args.source_path "transforms_train.json") then
    Except.ok (LoaderKind.Blender, env.blender args.source_path args.white_background args.eval)
  else
    Except.error "Could not recognize scene type!"

/-- The `camlist` built before serialization: start empty, extend with the
test cameras if that list is truthy (non-empty), then with the train
cameras if truthy. -/
def buildCamlist (info : SceneInfo Cam PC) : List Cam :=
  let camlist : List Cam := []
  let camlist := if info.test_cameras.isEmpty then camlist else camlist ++ info.test_cameras
  let camlist := if info.train_cameras.isEmpty then camlist else camlist ++ info.train_cameras
  camlist

/-- `json_cams`: each camera of `camlist` serialized with its `enumerate`
index. -/
def jsonCamsOf (env : Env Cam CamObj PC J) (info : SceneInfo Cam PC) : List J :=
  (buildCamlist info).enum.map (fun p => env.camera_to_JSON p.1 p.2)

/-- The file writes of fresh-training mode: copy `scene_info.ply_path`
verbatim to `<model_path>/input.ply`, then dump `json_cams` to
`<model_path>/cameras.json`.  Skipped (no writes) when `self.loaded_iter`
is truthy. -/
def freshWrites (env : Env Cam CamObj PC J) (model_path : String)
    (info : SceneInfo Cam PC) : List (String × FileContent J) :=
  [ (pathJoin model_path "input.ply", FileContent.copyOf info.ply_path),
    (pathJoin model_path "cameras.json", FileContent.jsonCams (jsonCamsOf env info)) ]

/-- The path `self.gaussians.load_ply` receives:
`os.path.join(model_path, "point_cloud", "iteration_" + str(n),
"point_cloud.ply")`. -/
def loadPlyPath (model_path : String) (n : Int) : String :=
  pathJoin (pathJoin (pathJoin model_path "point_cloud") ("iteration_" ++ toString n)) "point_cloud.ply"

/-- The model-initialization branch at the end of `Scene.__init__`:
`if self.loaded_iter:` load the persisted point cloud, `else` create the
model from the loader's point cloud and the scene extent. -/
def modelInitCalls (model_path : String) (loaded_iter : Option Int)
    (info : SceneInfo Cam PC) (extent : ℚ) : List (ModelOp PC) :=
  if optTruthy loaded_iter then
    [ModelOp.load_ply (loadPlyPath model_path (loaded_iter.getD 0))]
  else
    [ModelOp.create_from_pcd info.point_cloud extent]

/-- Build one scale-keyed camera dictionary: for each resolution scale in
order, assign the camera list built from `cams` at that scale. -/
def buildCamDict (env : Env Cam CamObj PC J) (args : ModelParams)
    (resolution_scales : List ℚ) (cams : List Cam) : ℚ → Option (List CamObj) :=
  resolution_scales.foldl
    (fun d sc => dictInsert d sc (env.cameraList_from_camInfos cams sc args)) dictEmpty

/-- The body of `Scene.__init__` after the dataset dispatch succeeded with
loader `loaderUsed` and scene description `scene_info`: write `input.ply`
and `cameras.json` in fresh-training mode, shuffle the camera sequences if
requested, record the scene extent, build the per-scale camera
dictionaries, and initialize the model by exactly one of `load_ply` /
`create_from_pcd`. -/
def mkSceneState (env : Env Cam CamObj PC J) (args : ModelParams)
    (load_iteration : Option Int) (shuffle : Bool) (resolution_scales : List ℚ)
    (loaderUsed : LoaderKind) (scene_info : SceneInfo Cam PC) :
    SceneState Cam CamObj PC J :=
  let model_path := args.model_path
  let loaded_iter := resolveIter env model_path load_iteration
  let writes :=
    if optTruthy loaded_iter then [] else freshWrites env model_path scene_info
  let train_seq :=
    if shuffle then env.shuffleTrain scene_info.train_cameras else scene_info.train_cameras
  let test_seq :=
    if shuffle then env.shuffleTest scene_info.test_cameras else scene_info.test_cameras
  let cameras_extent := scene_info.nerf_normalization_radius
  { model_path := model_path
    loaded_iter := loaded_iter
    loaderUsed := loaderUsed
    scene_info := scene_info
    writes := writes
    cameras_extent := cameras_extent
    train_cameras := buildCamDict env args resolution_scales train_seq
    test_cameras := buildCamDict env args resolution_scales test_seq
    gaussianCalls := modelInitCalls model_path loaded_iter scene_info cameras_extent }

/-- `Scene.__init__`: resolve the iteration, dispatch on the dataset
layout (failing there aborts construction), then build the scene state and
effect trace with `mkSceneState`. -/
def sceneInit (env : Env Cam CamObj PC J) (args : ModelParams)
    (load_iteration : Option Int := none) (shuffle : Bool := true)
    (resolution_scales : List ℚ := [1]) :
    Except String (SceneState Cam CamObj PC J) :=
  match loadSceneInfo env args with
  | Except.error e => Except.error e
  | Except.ok (loaderUsed, scene_info) =>
      Except.ok (mkSceneState env args load_iteration shuffle resolution_scales loaderUsed scene_info)

/-- `Scene.save(iteration)`: the path handed to `self.gaussians.save_ply`,
namely `os.path.join(model_path, "point_cloud/iteration_{}".format(n))`
joined with `"point_cloud.ply"`. -/
def SceneState.save (s : SceneState Cam CamObj PC J) (iteration : Int) : String :=
  pathJoin (pathJoin s.model_path ("point_cloud/iteration_" ++ toString iteration)) "point_cloud.ply"

/-- `Scene.getTrainCameras(scale=1.0)`: dictionary lookup; `none` models
the `KeyError` raised on an unrequested scale. -/
def SceneState.getTrainCameras (s : SceneState Cam CamObj PC J) (scale : ℚ := 1) :
    Option (List CamObj) :=
  s.train_cameras scale

/-- `Scene.getTestCameras(scale=1.0)`: dictionary lookup; `none` models
the `KeyError` raised on an unrequested scale. -/
def SceneState.getTestCameras (s : SceneState Cam CamObj PC J) (scale : ℚ := 1) :
    Option (List CamObj) :=
  s.test_cameras scale

/-! ### Basic lemmas about the embedding -/

theorem mkSceneState_model_path (env : Env Cam CamObj PC J) (args : ModelParams)
    (li : Option Int) (sh : Bool) (scales : List ℚ) (k : LoaderKind)
    (info : SceneInfo Cam PC) :
    (mkSceneState env args li sh scales k info).model_path = args.model_path := rfl

theorem mkSceneState_loaded_iter (env : Env Cam CamObj PC J) (args : ModelParams)
    (li : Option Int) (sh : Bool) (scales : List ℚ) (k : LoaderKind)
    (info : SceneInfo Cam PC) :
    (mkSceneState env args li sh scales k info).loaded_iter =
      resolveIter env args.model_path li := rfl

theorem mkSceneState_loaderUsed (env : Env Cam CamObj PC J) (args : ModelParams)
    (li : Option Int) (sh : Bool) (scales : List ℚ) (k : LoaderKind)
    (info : SceneInfo Cam PC) :
    (mkSceneState env args li sh scales k info).loaderUsed = k := rfl

theorem mkSceneState_scene_info (env : Env Cam CamObj PC J) (args : ModelParams)
    (li : Option Int) (sh : Bool) (scales : List ℚ) (k : LoaderKind)
    (info : SceneInfo Cam PC) :
    (mkSceneState env args li sh scales k info).scene_info = info := rfl

theorem mkSceneState_writes (env : Env Cam CamObj PC J) (args : ModelParams)
    (li : Option Int) (sh : Bool) (scales : List ℚ) (k : LoaderKind)
    (info : SceneInfo Cam PC) :
    (mkSceneState env args li sh scales k info).writes =
      if optTruthy (resolveIter env args.model_path li) then []
      else freshWrites env args.model_path info := rfl

theorem mkSceneState_train_cameras (env : Env Cam CamObj PC J) (args : ModelParams)
    (li : Option Int) (sh : Bool) (scales : List ℚ) (k : LoaderKind)
    (info : SceneInfo Cam PC) :
    (mkSceneState env args li sh scales k info).train_cameras =
      buildCamDict env args scales
        (if sh then env.shuffleTrain info.train_cameras else info.train_cameras) := rfl

theorem mkSceneState_test_cameras (env : Env Cam CamObj PC J) (args : ModelParams)
    (li : Option Int) (sh : Bool) (scales : List ℚ) (k : LoaderKind)
    (info : SceneInfo Cam PC) :
    (mkSceneState env args li sh scales k info).test_cameras =
      buildCamDict env args scales
        (if sh then env.shuffleTest info.test_cameras else info.test_cameras) := rfl

theorem mkSceneState_gaussianCalls (env : Env Cam CamObj PC J) (args : ModelParams)
    (li : Option Int) (sh : Bool) (scales : List ℚ) (k : LoaderKind)
    (info : SceneInfo Cam PC) :
    (mkSceneState env args li sh scales k info).gaussianCalls =
      modelInitCalls args.model_path (resolveIter env args.model_path li) info
        info.nerf_normalization_radius := rfl

/-- Inversion: a successful construction comes from a successful dispatch,
and the state is the one `mkSceneState` builds. -/
theorem sceneInit_ok_elim {env : Env Cam CamObj PC J} {args : ModelParams}
    {li : Option Int} {sh : Bool} {scales : List ℚ}
    {s : SceneState Cam CamObj PC J}
    (h : sceneInit env args li sh scales = Except.ok s) :
    ∃ k info, loadSceneInfo env args = Except.ok (k, info) ∧
      s = mkSceneState env args li sh scales k info := by
  unfold sceneInit at h
  cases hl : loadSceneInfo env args with
  | error e => rw [hl] at h; cases h
  | ok ki =>
    obtain ⟨k, info⟩ := ki
    rw [hl] at h
    exact ⟨k, info, rfl, (Except.ok.inj h).symm⟩

theorem resolveIter_none (env : Env Cam CamObj PC J) (mp : String) :
    resolveIter env mp none = none := rfl

theorem resolveIter_zero (env : Env Cam CamObj PC J) (mp : String) :
    resolveIter env mp (some 0) = none := rfl

theorem resolveIter_neg_one (env : Env Cam CamObj PC J) (mp : String) :
    resolveIter env mp (some (-1)) =
      some (env.searchForMaxIteration (pathJoin mp "point_cloud")) := by
  simp [resolveIter, optTruthy]

theorem resolveIter_some (env : Env Cam CamObj PC J) (mp : String) {n : Int}
    (h0 : n ≠ 0) (h1 : n ≠ -1) :
    resolveIter env mp (some n) = some n := by
  simp [resolveIter, optTruthy, h0, h1]

theorem optTruthy_some {n : Int} (h0 : n ≠ 0) : optTruthy (some n) = true := by
  simp [optTruthy, h0]

/-- The `camlist` really is the test cameras followed by the train
cameras: extending by an empty list is a no-op, so the truthiness guards
do not change the result. -/
theorem buildCamlist_eq (info : SceneInfo Cam PC) :
    buildCamlist info = info.test_cameras ++ info.train_cameras := by
  unfold buildCamlist
  by_cases h1 : info.test_cameras.isEmpty <;>
    by_cases h2 : info.train_cameras.isEmpty <;>
      simp_all [List.isEmpty_iff]

/-- Lookup in a dict built by a left fold of assignments with a
key-determined value. -/
theorem foldl_dictInsert_apply {α : Type} (f : ℚ → α) :
    ∀ (scales : List ℚ) (d : ℚ → Option α) (q : ℚ),
      (List.foldl (fun d sc => dictInsert d sc (f sc)) d scales) q =
        if q ∈ scales then some (f q) else d q := by
  intro scales
  induction scales with
  | nil => intro d q; simp
  | cons a rest ih =>
    intro d q
    rw [List.foldl_cons, ih]
    by_cases hq : q ∈ rest
    · simp [hq]
    · by_cases ha : q = a
      · subst ha; simp [hq, dictInsert]
      · simp [hq, ha, dictInsert]

/-- Lookup in a per-scale camera dictionary. -/
theorem buildCamDict_apply (env : Env Cam CamObj PC J) (args : ModelParams)
    (scales : List ℚ) (cams : List Cam) (q : ℚ) :
    buildCamDict env args scales cams q =
      if q ∈ scales then some (env.cameraList_from_camInfos cams q args) else none := by
  have h := foldl_dictInsert_apply
    (fun sc => env.cameraList_from_camInfos cams sc args) scales dictEmpty q
  simpa [buildCamDict, dictEmpty] using h

/-- The path written by `save(n)` and the path read when resuming at
iteration `n` are the same string. -/
theorem savePath_eq_loadPlyPath (mp : String) (n : Int) :
    pathJoin (pathJoin mp ("point_cloud/iteration_" ++ toString n)) "point_cloud.ply" =
      loadPlyPath mp n := by
  unfold loadPlyPath pathJoin
  rw [show ("point_cloud/iteration_" : String) = "point_cloud" ++ "/" ++ "iteration_" from rfl]
  simp only [String.append_assoc]

/-! ### A concrete fixture used by witnesses and counterexamples -/

/-- A concrete scene description: camera records and camera objects are
numbers, the point cloud is a unit token, a serialized camera is its
(id, record) pair. -/
def infoW : SceneInfo Nat Unit :=
  { point_cloud := ()
    train_cameras := [10, 11]
    test_cameras := [20]
    nerf_normalization_radius := 3
    ply_path := "data/points3D.ply" }

/-- A second concrete scene description, returned by the Blender loader of
the fixture environment. -/
def infoB : SceneInfo Nat Unit :=
  { infoW with train_cameras := [30], test_cameras := [] }

/-- A concrete environment: every path exists (so the Colmap branch is
taken), the directory scan yields 7, the camera builder keeps the records
as objects, and both shuffles reverse their input. -/
def envW : Env Nat Nat Unit (Nat × Nat) :=
  { fsExists := fun _ => true
    searchForMaxIteration := fun _ => 7
    colmap := fun _ _ _ => infoW
    blender := fun _ _ _ => infoB
    cameraList_from_camInfos := fun cams _ _ => cams
    camera_to_JSON := fun i c => (i, c)
    shuffleTrain := List.reverse
    shuffleTest := List.reverse }

/-- The fixture environment with only `transforms_train.json` present. -/
def envB : Env Nat Nat Unit (Nat × Nat) :=
  { envW with fsExists := fun p => p == "data/transforms_train.json" }

/-- The fixture environment with no recognizable layout. -/
def envN : Env Nat Nat Unit (Nat × Nat) :=
  { envW with fsExists := fun _ => false }

/-- The fixture environment whose directory scan finds iteration `0` as
the maximum (the `point_cloud` directory only holds `iteration_0`). -/
def envZ : Env Nat Nat Unit (Nat × Nat) :=
  { envW with searchForMaxIteration := fun _ => 0 }

/-- Concrete construction arguments. -/
def argsW : ModelParams :=
  { model_path := "out"
    source_path := "data"
    images := "images"
    eval := false
    white_background := false }

/-! ### The claims -/

/-- C1 (amended): iteration-selector resolution in `Scene.__init__`.
With no selector, `loaded_iter` stays unset; with the latest selector (the
sentinel `-1`), it becomes the iteration number the directory scan returns
on `<model_path>/point_cloud` (per the spec, the highest iteration
present); with an explicitly supplied integer `n` other than `0` and `-1`,
it becomes exactly `n`.  The original claim asserted `loaded_iter = n` for
every explicitly supplied integer, but selector `0` is falsy in
`if load_iteration:` and leaves `loaded_iter` unset — see the
counterexample. -/
theorem C1_iteration_selector_resolution
    (env : Env Cam CamObj PC J) (args : ModelParams) (sh : Bool) (scales : List ℚ)
    (s : SceneState Cam CamObj PC J) :
    (sceneInit env args none sh scales = Except.ok s → s.loaded_iter = none) ∧
    (sceneInit env args (some (-1)) sh scales = Except.ok s →
      s.loaded_iter =
        some (env.searchForMaxIteration (pathJoin args.model_path "point_cloud"))) ∧
    (∀ n : Int, n ≠ 0 → n ≠ -1 →
      sceneInit env args (some n) sh scales = Except.ok s → s.loaded_iter = some n) := by
  refine ⟨fun h => ?_, fun h => ?_, fun n h0 h1 h => ?_⟩
  · obtain ⟨k, info, -, rfl⟩ := sceneInit_ok_elim h
    rw [mkSceneState_loaded_iter, resolveIter_none]
  · obtain ⟨k, info, -, rfl⟩ := sceneInit_ok_elim h
    rw [mkSceneState_loaded_iter, resolveIter_neg_one]
  · obtain ⟨k, info, -, rfl⟩ := sceneInit_ok_elim h
    rw [mkSceneState_loaded_iter, resolveIter_some env args.model_path h0 h1]

/-- C1 witness: on the fixture, selector `5` resolves to iteration `5` and
the latest selector `-1` resolves to the scanned maximum `7`. -/
theorem C1_iteration_selector_resolution_witness :
    (mkSceneState envW argsW (some 5) true [1] LoaderKind.Colmap infoW).loaded_iter =
      some 5 ∧
    (mkSceneState envW argsW (some (-1)) true [1] LoaderKind.Colmap infoW).loaded_iter =
      some 7 := by
  constructor
  · exact (C1_iteration_selector_resolution envW argsW true [1]
      (mkSceneState envW argsW (some 5) true [1] LoaderKind.Colmap infoW)).2.2
      5 (by decide) (by decide) rfl
  · have h := (C1_iteration_selector_resolution envW argsW true [1]
      (mkSceneState envW argsW (some (-1)) true [1] LoaderKind.Colmap infoW)).2.1 rfl
    simpa [envW] using h

/-- C1 counterexample: the explicitly supplied integer selector `0` does
not set `loaded_iter` to `0`; it leaves it unset, because `0` is falsy in
Python's `if load_iteration:`. -/
theorem C1_counterexample_zero_selector :
    (sceneInit envW argsW (some 0) true [1]).map (fun s => s.loaded_iter) =
      Except.ok none ∧
    (none : Option Int) ≠ some 0 := ⟨rfl, by decide⟩

/-- C2 (amended): every completed construction makes exactly one
model-initialization call, and that call is `load_ply` exactly when the
resolved `loaded_iter` is truthy (set and nonzero) — otherwise it is
`create_from_pcd`.  The original claim said "exactly when an iteration was
resolved": a resolved iteration of `0` (latest selector with the scan
finding `iteration_0`) is falsy in `if self.loaded_iter:` and still leads
to `create_from_pcd` — see the counterexample. -/
theorem C2_model_init_exactly_one
    (env : Env Cam CamObj PC J) (args : ModelParams) (li : Option Int)
    (sh : Bool) (scales : List ℚ) (s : SceneState Cam CamObj PC J)
    (h : sceneInit env args li sh scales = Except.ok s) :
    s.gaussianCalls.length = 1 ∧
    ((∃ p, s.gaussianCalls = [ModelOp.load_ply p]) ↔ optTruthy s.loaded_iter = true) ∧
    ((∃ pc e, s.gaussianCalls = [ModelOp.create_from_pcd pc e]) ↔
      optTruthy s.loaded_iter = false) := by
  obtain ⟨k, info, -, rfl⟩ := sceneInit_ok_elim h
  rw [mkSceneState_gaussianCalls, mkSceneState_loaded_iter]
  unfold modelInitCalls
  cases hT : optTruthy (resolveIter env args.model_path li) <;> simp [hT]

/-- C2 witness: on the fixture with selector `5`, exactly one model call
is made. -/
theorem C2_model_init_exactly_one_witness :
    (mkSceneState envW argsW (some 5) true [1] LoaderKind.Colmap infoW).gaussianCalls.length
      = 1 :=
  (C2_model_init_exactly_one envW argsW (some 5) true [1]
    (mkSceneState envW argsW (some 5) true [1] LoaderKind.Colmap infoW) rfl).1

/-- C2 counterexample: with the latest selector and a scan that finds
iteration `0`, an iteration is resolved (`loaded_iter = some 0`) yet the
model is initialized by `create_from_pcd`, not `load_ply`. -/
theorem C2_counterexample_resolved_zero :
    (sceneInit envZ argsW (some (-1)) true [1]).map
        (fun s => (s.loaded_iter, s.gaussianCalls)) =
      Except.ok (some 0, [ModelOp.create_from_pcd () 3]) ∧
    some (0 : Int) ≠ none := ⟨rfl, by decide⟩

/-- C3 (amended): if the resolved `loaded_iter` is truthy (resuming from a
nonzero iteration) no file write occurs; if it is falsy (fresh-training
mode) exactly the two writes occur: the point-cloud source copied verbatim
to `<model_path>/input.ply` and the serialized cameras to
`<model_path>/cameras.json`.  The original claim tied "no writes" to the
iteration selector being supplied, but the supplied selector `0` is falsy
and both writes still occur — see the counterexample. -/
theorem C3_fresh_mode_writes
    (env : Env Cam CamObj PC J) (args : ModelParams) (li : Option Int)
    (sh : Bool) (scales : List ℚ) (s : SceneState Cam CamObj PC J)
    (h : sceneInit env args li sh scales = Except.ok s) :
    (optTruthy s.loaded_iter = true → s.writes = []) ∧
    (optTruthy s.loaded_iter = false →
      s.writes =
        [ (pathJoin args.model_path "input.ply",
            FileContent.copyOf s.scene_info.ply_path),
          (pathJoin args.model_path "cameras.json",
            FileContent.jsonCams (jsonCamsOf env s.scene_info)) ]) := by
  obtain ⟨k, info, -, rfl⟩ := sceneInit_ok_elim h
  rw [mkSceneState_writes, mkSceneState_loaded_iter, mkSceneState_scene_info]
  cases hT : optTruthy (resolveIter env args.model_path li) <;> simp [hT, freshWrites]

/-- C3 witness: a fresh-training construction on the fixture writes
exactly `out/input.ply` (a copy of the source point cloud) and
`out/cameras.json`. -/
theorem C3_fresh_mode_writes_witness :
    (mkSceneState envW argsW none true [1] LoaderKind.Colmap infoW).writes =
      [ ("out/input.ply", FileContent.copyOf "data/points3D.ply"),
        ("out/cameras.json", FileContent.jsonCams (jsonCamsOf envW infoW)) ] :=
  (C3_fresh_mode_writes envW argsW none true [1]
    (mkSceneState envW argsW none true [1] LoaderKind.Colmap infoW) rfl).2 rfl

/-- C3 counterexample: with the iteration selector supplied as `0`, the
construction still writes both `input.ply` and `cameras.json`. -/
theorem C3_counterexample_selector_zero_writes :
    (sceneInit envW argsW (some 0) true [1]).map (fun s => s.writes.map Prod.fst) =
      Except.ok ["out/input.ply", "out/cameras.json"] ∧
    (["out/input.ply", "out/cameras.json"] : List String) ≠ [] := ⟨rfl, by decide⟩

/-- C4 (confirmed): dataset-type dispatch.  A `sparse` subdirectory under
the source path selects the Colmap loader; otherwise a
`transforms_train.json` file selects the Blender loader; with neither
present, construction aborts with the "Could not recognize scene type!"
assertion error and produces no state (in the embedding the loaders are
only applied on the two success branches, so no loader is invoked). -/
theorem C4_dataset_dispatch
    (env : Env Cam CamObj PC J) (args : ModelParams) (li : Option Int)
    (sh : Bool) (scales : List ℚ) :
    (env.fsExists (pathJoin args.source_path "sparse") = true →
      (sceneInit env args li sh scales).map (fun s => s.loaderUsed) =
        Except.ok LoaderKind.Colmap) ∧
    (env.fsExists (pathJoin args.source_path "sparse") = false →
      env.fsExists (pathJoin args.source_path "transforms_train.json") = true →
      (sceneInit env args li sh scales).map (fun s => s.loaderUsed) =
        Except.ok LoaderKind.Blender) ∧
    (env.fsExists (pathJoin args.source_path "sparse") = false →
      env.fsExists (pathJoin args.source_path "transforms_train.json") = false →
      sceneInit env args li sh scales = Except.error "Could not recognize scene type!") := by
  refine ⟨fun h1 => ?_, fun h1 h2 => ?_, fun h1 h2 => ?_⟩
  · simp [sceneInit, loadSceneInfo, h1, Except.map, mkSceneState_loaderUsed]
  · simp [sceneInit, loadSceneInfo, h1, h2, Except.map, mkSceneState_loaderUsed]
  · simp [sceneInit, loadSceneInfo, h1, h2]

/-- C4 witness: the three fixture layouts select Colmap, Blender, and the
fatal error respectively. -/
theorem C4_dataset_dispatch_witness :
    (sceneInit envW argsW none true [1]).map (fun s => s.loaderUsed) =
      Except.ok LoaderKind.Colmap ∧
    (sceneInit envB argsW none true [1]).map (fun s => s.loaderUsed) =
      Except.ok LoaderKind.Blender ∧
    sceneInit envN argsW none true [1] = Except.error "Could not recognize scene type!" :=
  ⟨(C4_dataset_dispatch envW argsW none true [1]).1 rfl,
   (C4_dataset_dispatch envB argsW none true [1]).2.1 (by decide) (by decide),
   (C4_dataset_dispatch envN argsW none true [1]).2.2 rfl rfl⟩

/-- C5 (confirmed): in fresh-training mode the JSON array written to
`cameras.json` is the serialization of the test cameras followed by the
train cameras with their `enumerate` indices, so it has exactly
`len(test) + len(train)` entries with sequential ids `0..k-1` in that
concatenation order; and the writes of a construction do not depend on the
shuffle flag (the files are written before any shuffling happens). -/
theorem C5_cameras_json_content
    (env : Env Cam CamObj PC J) (args : ModelParams) (li : Option Int)
    (sh : Bool) (scales : List ℚ) (s : SceneState Cam CamObj PC J)
    (h : sceneInit env args li sh scales = Except.ok s)
    (hfresh : optTruthy s.loaded_iter = false) :
    ((pathJoin args.model_path "cameras.json",
        FileContent.jsonCams
          ((s.scene_info.test_cameras ++ s.scene_info.train_cameras).enum.map
            (fun p => env.camera_to_JSON p.1 p.2))) ∈ s.writes ∧
      ((s.scene_info.test_cameras ++ s.scene_info.train_cameras).enum.map
          (fun p => env.camera_to_JSON p.1 p.2)).length =
        s.scene_info.test_cameras.length + s.scene_info.train_cameras.length) ∧
    (sceneInit env args li true scales).map (fun t => t.writes) =
      (sceneInit env args li false scales).map (fun t => t.writes) := by
  constructor
  · obtain ⟨k, info, -, rfl⟩ := sceneInit_ok_elim h
    rw [mkSceneState_loaded_iter] at hfresh
    constructor
    · rw [mkSceneState_writes, mkSceneState_scene_info, hfresh]
      simp [freshWrites, jsonCamsOf, buildCamlist_eq]
    · simp
  · cases hl : loadSceneInfo env args with
    | error e => simp [sceneInit, hl]
    | ok ki =>
      obtain ⟨k, info⟩ := ki
      simp only [sceneInit, hl, Except.map]
      rfl

/-- C5 witness: on the fixture the serialized array is
`[(0, 20), (1, 10), (2, 11)]` — the test camera first, then the train
cameras, ids `0..2` — and the writes are shuffle-independent. -/
theorem C5_cameras_json_content_witness :
    jsonCamsOf envW infoW = [(0, 20), (1, 10), (2, 11)] ∧
    (sceneInit envW argsW none true [1]).map (fun t => t.writes) =
      (sceneInit envW argsW none false [1]).map (fun t => t.writes) :=
  ⟨rfl,
   (C5_cameras_json_content envW argsW none true [1]
      (mkSceneState envW argsW none true [1] LoaderKind.Colmap infoW) rfl rfl).2⟩

/-- C6 (amended): for every iteration `n` other than `0` and `-1`,
`save(n)` hands the model the path
`<model_path>/point_cloud/iteration_<n>/point_cloud.ply`, and a new
construction with iteration selector `n` restores the model from exactly
that path.  The original claim said "for any iteration N": for `n = 0` the
selector is falsy and the new Scene never calls `load_ply` (see the
counterexample), and `n = -1` is reserved as the latest-selector
sentinel. -/
theorem C6_save_load_round_trip
    (env : Env Cam CamObj PC J) (args : ModelParams) (sh : Bool)
    (scales : List ℚ) (s : SceneState Cam CamObj PC J) (n : Int)
    (h0 : n ≠ 0) (h1 : n ≠ -1)
    (h : sceneInit env args (some n) sh scales = Except.ok s) :
    s.gaussianCalls = [ModelOp.load_ply (s.save n)] ∧
    s.save n = loadPlyPath args.model_path n := by
  obtain ⟨k, info, -, rfl⟩ := sceneInit_ok_elim h
  have hs : (mkSceneState env args (some n) sh scales k info).save n =
      loadPlyPath args.model_path n := by
    unfold SceneState.save
    rw [mkSceneState_model_path]
    exact savePath_eq_loadPlyPath args.model_path n
  refine ⟨?_, hs⟩
  rw [mkSceneState_gaussianCalls, resolveIter_some env args.model_path h0 h1, hs]
  unfold modelInitCalls
  rw [optTruthy_some h0]
  simp

/-- C6 witness: on the fixture, `save(5)` and the resume path of a
construction with selector `5` agree on
`out/point_cloud/iteration_5/point_cloud.ply`. -/
theorem C6_save_load_round_trip_witness :
    (mkSceneState envW argsW (some 5) true [1] LoaderKind.Colmap infoW).gaussianCalls =
      [ModelOp.load_ply
        ((mkSceneState envW argsW (some 5) true [1] LoaderKind.Colmap infoW).save 5)] ∧
    (mkSceneState envW argsW (some 5) true [1] LoaderKind.Colmap infoW).save 5 =
      "out/point_cloud/iteration_5/point_cloud.ply" := by
  have h := C6_save_load_round_trip envW argsW true [1]
    (mkSceneState envW argsW (some 5) true [1] LoaderKind.Colmap infoW) 5
    (by decide) (by decide) rfl
  exact ⟨h.1, by rw [h.2]; rfl⟩

/-- C6 counterexample: after `save(0)` wrote
`out/point_cloud/iteration_0/point_cloud.ply`, a construction with
iteration selector `0` does not restore from it — the only model call is
`create_from_pcd`. -/
theorem C6_counterexample_zero_round_trip :
    (sceneInit envW argsW (some 0) true [1]).map (fun s => s.gaussianCalls) =
      Except.ok [ModelOp.create_from_pcd () 3] ∧
    ([ModelOp.create_from_pcd () 3] : List (ModelOp Unit)) ≠
      [ModelOp.load_ply (loadPlyPath "out" 0)] := by
  exact ⟨rfl, by simp⟩

/-- C7 (confirmed): with the shuffle flag set, the train and the test
camera sequences are each replaced by the (random) rearrangement of that
sequence alone — a permutation of it — and the per-scale lists are built
from these; the two rearrangements are independent: replacing the test
shuffler leaves the train mapping unchanged and conversely.  With the
shuffle flag unset, the per-scale lists are built from the loader's
sequences in their exact order, and two such constructions coincide. -/
theorem C7_shuffle_behavior
    (env : Env Cam CamObj PC J) (args : ModelParams) (li : Option Int)
    (scales : List ℚ) (g : List Cam → List Cam) (k : LoaderKind)
    (info : SceneInfo Cam PC)
    (hload : loadSceneInfo env args = Except.ok (k, info))
    (hT : ∀ l : List Cam, (env.shuffleTrain l).Perm l)
    (hE : ∀ l : List Cam, (env.shuffleTest l).Perm l) :
    (∀ s, sceneInit env args li true scales = Except.ok s →
      (env.shuffleTrain info.train_cameras).Perm info.train_cameras ∧
      (env.shuffleTest info.test_cameras).Perm info.test_cameras ∧
      ∀ q ∈ scales,
        s.train_cameras q =
          some (env.cameraList_from_camInfos
            (env.shuffleTrain info.train_cameras) q args) ∧
        s.test_cameras q =
          some (env.cameraList_from_camInfos
            (env.shuffleTest info.test_cameras) q args)) ∧
    ((sceneInit { env with shuffleTest := g } args li true scales).map
        (fun s => s.train_cameras) =
      (sceneInit env args li true scales).map (fun s => s.train_cameras) ∧
     (sceneInit { env with shuffleTrain := g } args li true scales).map
        (fun s => s.test_cameras) =
      (sceneInit env args li true scales).map (fun s => s.test_cameras)) ∧
    (∀ s₀ s₁, sceneInit env args li false scales = Except.ok s₀ →
      sceneInit env args li false scales = Except.ok s₁ →
      s₀ = s₁ ∧
      ∀ q ∈ scales,
        s₀.train_cameras q =
          some (env.cameraList_from_camInfos info.train_cameras q args) ∧
        s₀.test_cameras q =
          some (env.cameraList_from_camInfos info.test_cameras q args)) := by
  refine ⟨?_, ⟨?_, ?_⟩, ?_⟩
  · intro s h
    obtain ⟨k', info', hl', rfl⟩ := sceneInit_ok_elim h
    rw [hload] at hl'
    injection hl' with hp
    injection hp with e1 e2
    subst e1; subst e2
    refine ⟨hT _, hE _, fun q hq => ?_⟩
    constructor
    · simp [mkSceneState_train_cameras, buildCamDict_apply, hq]
    · simp [mkSceneState_test_cameras, buildCamDict_apply, hq]
  · cases hl : loadSceneInfo env args with
    | error e =>
      simp [sceneInit,
        show loadSceneInfo { env with shuffleTest := g } args = loadSceneInfo env args from rfl,
        hl]
    | ok ki =>
      obtain ⟨k', i'⟩ := ki
      simp only [sceneInit,
        show loadSceneInfo { env with shuffleTest := g } args = loadSceneInfo env args from rfl,
        hl, Except.map]
      rfl
  · cases hl : loadSceneInfo env args with
    | error e =>
      simp [sceneInit,
        show loadSceneInfo { env with shuffleTrain := g } args = loadSceneInfo env args from rfl,
        hl]
    | ok ki =>
      obtain ⟨k', i'⟩ := ki
      simp only [sceneInit,
        show loadSceneInfo { env with shuffleTrain := g } args = loadSceneInfo env args from rfl,
        hl, Except.map]
      rfl
  · intro s₀ s₁ h₀ h₁
    obtain ⟨k', info', hl', rfl⟩ := sceneInit_ok_elim h₀
    rw [hload] at hl'
    injection hl' with hp
    injection hp with e1 e2
    subst e1; subst e2
    have hs : s₁ = mkSceneState env args li false scales k info :=
      (Except.ok.inj (h₀.symm.trans h₁)).symm
    subst hs
    refine ⟨rfl, fun q hq => ?_⟩
    constructor
    · simp [mkSceneState_train_cameras, buildCamDict_apply, hq]
    · simp [mkSceneState_test_cameras, buildCamDict_apply, hq]

/-- C7 witness: on the fixture (whose shuffle outcomes are list reversal,
a permutation), replacing the test shuffler does not change the train
mapping. -/
theorem C7_shuffle_behavior_witness :
    (sceneInit { envW with shuffleTest := List.reverse } argsW none true [1]).map
        (fun s => s.train_cameras) =
      (sceneInit envW argsW none true [1]).map (fun s => s.train_cameras) :=
  (C7_shuffle_behavior envW argsW none [1] List.reverse LoaderKind.Colmap infoW rfl
    (fun l => l.reverse_perm) (fun l => l.reverse_perm)).2.1.1

/-- C8 (confirmed): after any completed construction, a rational is a key
of the train mapping exactly when it is one of the requested resolution
scales, and likewise for the test mapping — so the two key sets are the
identical set, namely the requested scales. -/
theorem C8_scale_key_sets
    (env : Env Cam CamObj PC J) (args : ModelParams) (li : Option Int)
    (sh : Bool) (scales : List ℚ) (s : SceneState Cam CamObj PC J)
    (h : sceneInit env args li sh scales = Except.ok s) (q : ℚ) :
    ((s.train_cameras q).isSome = true ↔ q ∈ scales) ∧
    ((s.test_cameras q).isSome = true ↔ q ∈ scales) := by
  obtain ⟨k, info, -, rfl⟩ := sceneInit_ok_elim h
  rw [mkSceneState_train_cameras, mkSceneState_test_cameras,
    buildCamDict_apply, buildCamDict_apply]
  by_cases hq : q ∈ scales <;> simp [hq]

/-- C8 witness: constructing with scales `[1, 1/2]` on the fixture, `1` is
a key of the train mapping and `2` is not a key of the test mapping. -/
theorem C8_scale_key_sets_witness :
    (((mkSceneState envW argsW none true [1, 1/2] LoaderKind.Colmap infoW).train_cameras 1).isSome
        = true ↔ (1 : ℚ) ∈ [(1 : ℚ), 1/2]) ∧
    (((mkSceneState envW argsW none true [1, 1/2] LoaderKind.Colmap infoW).test_cameras 2).isSome
        = true ↔ (2 : ℚ) ∈ [(1 : ℚ), 1/2]) :=
  ⟨(C8_scale_key_sets envW argsW none true [1, 1/2]
      (mkSceneState envW argsW none true [1, 1/2] LoaderKind.Colmap infoW) rfl 1).1,
   (C8_scale_key_sets envW argsW none true [1, 1/2]
      (mkSceneState envW argsW none true [1, 1/2] LoaderKind.Colmap infoW) rfl 2).2⟩

/-- C9 (confirmed): `getTrainCameras` / `getTestCameras` return exactly
the stored per-scale entry (the getters are pure dictionary lookups, so
repeated calls return the same stored list); on every scale supplied at
construction the lookup succeeds, and on any other scale it is a
key-not-found error (`none`), never a silent default. -/
theorem C9_get_cameras_lookup
    (env : Env Cam CamObj PC J) (args : ModelParams) (li : Option Int)
    (sh : Bool) (scales : List ℚ) (s : SceneState Cam CamObj PC J)
    (h : sceneInit env args li sh scales = Except.ok s) (q : ℚ) :
    (s.getTrainCameras q = s.train_cameras q ∧
      s.getTestCameras q = s.test_cameras q) ∧
    (q ∈ scales →
      (s.getTrainCameras q).isSome = true ∧ (s.getTestCameras q).isSome = true) ∧
    (q ∉ scales →
      s.getTrainCameras q = none ∧ s.getTestCameras q = none) := by
  obtain ⟨k, info, -, rfl⟩ := sceneInit_ok_elim h
  refine ⟨⟨rfl, rfl⟩, fun hq => ?_, fun hq => ?_⟩
  · constructor <;>
      simp [SceneState.getTrainCameras, SceneState.getTestCameras,
        mkSceneState_train_cameras, mkSceneState_test_cameras, buildCamDict_apply, hq]
  · constructor <;>
      simp [SceneState.getTrainCameras, SceneState.getTestCameras,
        mkSceneState_train_cameras, mkSceneState_test_cameras, buildCamDict_apply, hq]

/-- C9 witness: on the fixture built with the single scale `1`, the
lookup at `1` succeeds and the lookup at `2` is a key error. -/
theorem C9_get_cameras_lookup_witness :
    ((mkSceneState envW argsW none true [1] LoaderKind.Colmap infoW).getTrainCameras 1).isSome
      = true ∧
    (mkSceneState envW argsW none true [1] LoaderKind.Colmap infoW).getTestCameras 2
      = none :=
  ⟨((C9_get_cameras_lookup envW argsW none true [1]
      (mkSceneState envW argsW none true [1] LoaderKind.Colmap infoW) rfl 1).2.1
      (by decide)).1,
   ((C9_get_cameras_lookup envW argsW none true [1]
      (mkSceneState envW argsW none true [1] LoaderKind.Colmap infoW) rfl 2).2.2
      (by decide)).2⟩

/-- C10 (confirmed): the explicit iteration selector `0` behaves exactly
like fresh-training mode — the whole construction is the same as with no
selector; in particular `loaded_iter` stays unset, both `input.ply` and
`cameras.json` are written, and the model is initialized by
`create_from_pcd`, not restored from `point_cloud/iteration_0`. -/
theorem C10_zero_selector_is_fresh
    (env : Env Cam CamObj PC J) (args : ModelParams) (sh : Bool) (scales : List ℚ) :
    sceneInit env args (some 0) sh scales = sceneInit env args none sh scales ∧
    (∀ s, sceneInit env args (some 0) sh scales = Except.ok s →
      s.loaded_iter = none ∧
      s.writes = freshWrites env args.model_path s.scene_info ∧
      s.gaussianCalls =
        [ModelOp.create_from_pcd s.scene_info.point_cloud
          s.scene_info.nerf_normalization_radius]) := by
  constructor
  · rfl
  · intro s h
    obtain ⟨k, info, -, rfl⟩ := sceneInit_ok_elim h
    refine ⟨?_, ?_, ?_⟩
    · rw [mkSceneState_loaded_iter, resolveIter_zero]
    · rw [mkSceneState_writes, mkSceneState_scene_info, resolveIter_zero]
      rfl
    · rw [mkSceneState_gaussianCalls, mkSceneState_scene_info, resolveIter_zero]
      rfl

/-- C10 witness: on the fixture with selector `0`, `loaded_iter` is unset,
the two fresh-mode files are written, and the model is created from the
point cloud. -/
theorem C10_zero_selector_is_fresh_witness :
    (mkSceneState envW argsW (some 0) true [1] LoaderKind.Colmap infoW).loaded_iter = none ∧
    (mkSceneState envW argsW (some 0) true [1] LoaderKind.Colmap infoW).writes =
      freshWrites envW "out" infoW ∧
    (mkSceneState envW argsW (some 0) true [1] LoaderKind.Colmap infoW).gaussianCalls =
      [ModelOp.create_from_pcd () 3] := by
  have h := (C10_zero_selector_is_fresh envW argsW true [1]).2
    (mkSceneState envW argsW (some 0) true [1] LoaderKind.Colmap infoW) rfl
  exact ⟨h.1, h.2.1, h.2.2⟩

end GSplat
